import Mathlib

/-!
Verification development for the per-user wallet conversation state machine in
`src/commands/wallet.ts` of NachoBotTS.

The TypeScript source is embedded shallowly:
* the session maps `userWalletStates` / `userSettings` become explicit fields of a `World`;
* every suspension point (`awaitMessageComponent` / `awaitMessages`), every rate-limit
  check, and every external wallet operation is resolved from a finite `Script` of
  scripted outcomes (empty script entries default to timeout / allowed / failure);
* the recursive prompt functions become a fuel-indexed interpreter `run`;
* outbound observable behaviour (prompt renders with their button ids, waits with their
  deadlines, session-map writes, and calls to the external wallet collaborators) is
  recorded in an effect trace.

External collaborators (`utils/…`) are not part of `src/`; where their behaviour matters
they are modelled from the spec, and each such definition says so in its doc comment.
-/

namespace NachoBot

/-- The three supported networks; these are exactly the button ids offered by
`promptNetworkSelection` ("Mainnet", "Testnet-10", "Testnet-11"). -/
inductive Network where
  | Mainnet
  | Testnet10
  | Testnet11
deriving DecidableEq

/-- The `WalletState` enum from `src/commands/wallet.ts` (lines 20-29). -/
inductive WalletState where
  | IDLE
  | NETWORK_SELECTION
  | WALLET_OPTIONS
  | WALLET_ACTIONS
  | SENDING_KASPA
  | CHECKING_BALANCE
  | VIEWING_HISTORY
  | IMPORTING_WALLET
deriving DecidableEq

/-- Modelled from the spec: the record stored in the external `userSettings` map
(`utils/userSettings` is not under `src/`).  Per spec §3, a `UserSession` carries the
selected `network` (`None` before selection), the wallet `address` (set after
creation/import), and a `lastActivity` timestamp.  The write at wallet.ts line 121
stores `{ network, lastActivity }`, i.e. a record with no address. -/
structure UserSession where
  network : Option Network
  address : Option String
  lastActivity : Nat
deriving DecidableEq

/-- The mutable state shared across dispatches: the `userWalletStates` map, the external
`userSettings` map, and the current clock value used for `Date.now()`. -/
structure World where
  states : String → Option WalletState
  settings : String → Option UserSession
  now : Nat

/-- `userWalletStates.set(uid, st)`. -/
def World.setState (w : World) (uid : String) (st : WalletState) : World :=
  { w with states := fun u => if u = uid then some st else w.states u }

/-- `userWalletStates.delete(uid)`. -/
def World.delState (w : World) (uid : String) : World :=
  { w with states := fun u => if u = uid then none else w.states u }

/-- `userSettings.set(uid, sess)`. -/
def World.setSettings (w : World) (uid : String) (sess : UserSession) : World :=
  { w with settings := fun u => if u = uid then some sess else w.settings u }

/-- Modelled from the spec: `generateNewWallet` / `importWalletFromPrivateKey`
(`utils/…`, not under `src/`) record the created/imported wallet address in the user's
session (spec §3: "`address`: … set after creation/import"). -/
def World.setAddress (w : World) (uid : String) (addr : String) : World :=
  { w with settings := fun u =>
      if u = uid then (w.settings u).map (fun sess => { sess with address := some addr })
      else w.settings u }

/-- Outcome of a single suspension point, as it resolves for the waiting user:
a timeout, an interaction failure (e.g. a failing `deferUpdate`), a component click
with a `customId`, or a free-text message. -/
inductive WaitResult where
  | timeout
  | failure
  | buttonOf (id : String)
  | message (content : String)
deriving DecidableEq

/-- Scripted outcomes for one dispatched event: one queue per kind of oracle.
`waits` feeds the suspension points, `rates` feeds `checkRateLimit`, and `exts` feeds
the external wallet operations (`some a` is success carrying an address/identifier,
`none` is failure). -/
structure Script where
  waits : List WaitResult
  rates : List Bool
  exts : List (Option String)
deriving DecidableEq

/-- Pop the next wait outcome; an exhausted queue behaves as a timeout. -/
def popWait : Script → WaitResult × Script
  | ⟨[], r, e⟩ => (.timeout, ⟨[], r, e⟩)
  | ⟨x :: xs, r, e⟩ => (x, ⟨xs, r, e⟩)

/-- Pop the next `checkRateLimit` outcome; an exhausted queue allows the action. -/
def popRate : Script → Bool × Script
  | ⟨w, [], e⟩ => (true, ⟨w, [], e⟩)
  | ⟨w, b :: bs, e⟩ => (b, ⟨w, bs, e⟩)

/-- Pop the next external-operation outcome; an exhausted queue yields failure. -/
def popExt : Script → Option String × Script
  | ⟨w, r, []⟩ => (none, ⟨w, r, []⟩)
  | ⟨w, r, x :: xs⟩ => (x, ⟨w, r, xs⟩)

/-- The seven suspension points of the source, by call site. -/
inductive WaitSite where
  | networkSelect
  | walletOptions
  | walletActions
  | privateKeyEntry
  | sendAddress
  | sendAmount
  | sendConfirm
deriving DecidableEq

/-- Which shape of input each suspension point waits for: `button` for
`awaitMessageComponent`, `text` for `awaitMessages`. -/
inductive WaitKind where
  | button
  | text
deriving DecidableEq

def WaitSite.kind : WaitSite → WaitKind
  | .networkSelect => .button
  | .walletOptions => .button
  | .walletActions => .button
  | .sendConfirm => .button
  | .privateKeyEntry => .text
  | .sendAddress => .text
  | .sendAmount => .text

/-- Observable effects of a dispatch, in program order: button-prompt renders (with their
`customId`s), suspension points (with their millisecond deadlines), session-map writes,
and calls into the external wallet collaborators. -/
inductive Effect where
  | prompt (choices : List String)
  | wait (site : WaitSite) (timeMs : Nat)
  | setStateEff (uid : String) (st : WalletState)
  | delStateEff (uid : String)
  | setSettingsEff (uid : String) (sess : UserSession)
  | generateWalletEff (uid : String) (net : Network)
  | importWalletEff (key uid : String) (net : Network)
  | sendKaspaEff (uid : String) (sompi : ℤ) (dest : String) (net : Network)
  | getBalanceEff (uid : String) (net : Option Network)
  | getHistoryEff (addr : String) (net : Option Network)
deriving DecidableEq

/-- Result of running a prompt function: the updated world, the unconsumed script,
the emitted effects, and whether the function terminated by raising (only
`promptNetworkSelection` can raise to its caller, via its pre-`try` rate-limit throw). -/
structure Res where
  world : World
  script : Script
  trace : List Effect
  threw : Bool

/-- Modelled from the spec: `sanitizeInput` (`utils/inputValidation`, not under `src/`)
is pure string sanitization with no further specified semantics; modelled as identity. -/
def sanitizeInput (s : String) : String := s

/-- Modelled from the spec: `validateAddress` (`utils/inputValidation`, not under
`src/`) is a pure boolean address-format check; modelled as requiring the "kaspa:"
scheme with a nonempty payload. -/
def validateAddress (s : String) : Bool :=
  "kaspa:".toList.isPrefixOf s.toList && s.toList.length > 6

def isDigits (l : List Char) : Bool :=
  !l.isEmpty && l.all (·.isDigit)

def digitsToNat (l : List Char) : Nat :=
  l.foldl (fun a c => a * 10 + (c.toNat - 48)) 0

/-- Split a character list on the dot character (the groups of `splitOn "."`). -/
def splitDots : List Char → List (List Char)
  | [] => [[]]
  | c :: cs =>
      if c = '.' then [] :: splitDots cs
      else
        match splitDots cs with
        | [] => [[c]]
        | g :: gs => (c :: g) :: gs

/-- Modelled from the spec: `validateAmount` (`utils/inputValidation`, not under
`src/`) is a pure boolean amount-format check; modelled as accepting positive decimal
numerals with at most 8 fractional digits (KAS has 10^8 minor units per unit). -/
def validateAmount (s : String) : Bool :=
  match splitDots s.toList with
  | [i] => isDigits i && decide (0 < digitsToNat i)
  | [i, f] =>
      isDigits i && isDigits f && decide (f.length ≤ 8) &&
        decide (0 < digitsToNat i + digitsToNat f)
  | _ => false

/-- Modelled from the spec: `validatePrivateKey` (`utils/inputValidation`, not under
`src/`) is a pure boolean private-key-format check; modelled as 64 hex characters. -/
def validatePrivateKey (s : String) : Bool :=
  s.toList.length = 64 &&
    s.toList.all (fun c => c.isDigit || ("abcdefABCDEF".toList.contains c))

/-!
JavaScript numbers are IEEE-754 binary64 doubles.  The source's
`BigInt(parseFloat(amount) * 1e8)` (wallet.ts line 387) therefore involves two
correctly-rounded operations, and its result is *not* always `amount * 10^8`: for
example `parseFloat("1.1") * 1e8` rounds to `110000000.00000001`, on which `BigInt`
raises a `RangeError`.  The model below computes binary64 values exactly, as dyadic
pairs `(m, t)` of value `m * 2^t` with a 53-bit significand `m`, using only natural
number arithmetic so that concrete executions reduce in the kernel.
-/

/-- Floor of the base-2 logarithm, with explicit recursion fuel.  Fuel 4200 is exact
for every argument below `2^4200`; for even larger arguments (far beyond the binary64
range, which ends at `2^1024`) the result is still at least 4200, so such values are
correctly classified as overflow by `roundB64`. -/
def log2f : Nat → Nat → Nat
  | 0, _ => 0
  | fuel + 1, n => if 2 ≤ n then log2f fuel (n / 2) + 1 else 0

/-- Round the nonnegative rational a / b to the nearest integer, ties to even. -/
def roundHalfEvenDiv (a b : Nat) : Nat :=
  let q := a / b
  let r := a % b
  if 2 * r < b then q
  else if b < 2 * r then q + 1
  else if q % 2 = 0 then q else q + 1

/-- Correct rounding of the positive rational n / d to IEEE binary64 (53-bit
significand, round half to even), returned as a dyadic pair `(m, t)` of exact value
`m * 2^t` with `2^52 ≤ m < 2^53`; `none` is overflow to Infinity (value at or beyond
`2^1024`).  Exact for every n / d at least `2^-63`; validated amounts are at least
`10^-8`, far above that, so subnormals and underflow are unreachable here. -/
def roundB64 (n d : Nat) : Option (Nat × Int) :=
  let e : Int := (log2f 4200 (n * 2 ^ 64 / d) : Int) - 64
  let m :=
    if e ≤ 52 then roundHalfEvenDiv (n * 2 ^ (52 - e).toNat) d
    else roundHalfEvenDiv n (d * 2 ^ (e - 52).toNat)
  let m' := if m = 2 ^ 53 then 2 ^ 52 else m
  let e' : Int := if m = 2 ^ 53 then e + 1 else e
  if 1024 ≤ e' then none else some (m', e' - 52)

/-- JavaScript `parseFloat` on a validated amount string under binary64 semantics:
the decimal value `N / 10^k` correctly rounded to a double (`none` is Infinity).
`sendKaspaPrompt` only evaluates this after `validateAmount` has accepted the string,
so the catch-all branch is unreachable there. -/
def parseFloatB64 (s : String) : Option (Nat × Int) :=
  match splitDots s.toList with
  | [i] => roundB64 (digitsToNat i) 1
  | [i, f] => roundB64 (digitsToNat i * 10 ^ f.length + digitsToNat f) (10 ^ f.length)
  | _ => none

/-- Binary64 multiplication of a double `(m, t)` by `1e8` (itself exactly
representable): the exact product `m * 10^8 * 2^t` correctly rounded back to a
double; `none` is overflow to Infinity. -/
def mulPow8B64 (p : Nat × Int) : Option (Nat × Int) :=
  if 0 ≤ p.2 then roundB64 (p.1 * 10 ^ 8 * 2 ^ p.2.toNat) 1
  else roundB64 (p.1 * 10 ^ 8) (2 ^ (-p.2).toNat)

/-- JavaScript `BigInt(x)` on a finite double `(m, t)`: succeeds exactly when the
value `m * 2^t` is an integer, and raises a `RangeError` (modelled as `none`)
otherwise. -/
def bigIntB64 (p : Nat × Int) : Option Nat :=
  if 0 ≤ p.2 then some (p.1 * 2 ^ p.2.toNat)
  else if p.1 % 2 ^ (-p.2).toNat = 0 then some (p.1 / 2 ^ (-p.2).toNat) else none

/-- `BigInt(parseFloat(amount) * 1e8)` (wallet.ts line 387) under IEEE binary64
semantics.  `none` means the expression raises: a `RangeError` when the rounded
product is not an integer, or `BigInt(Infinity)` on overflow. -/
def amountSompiB64 (s : String) : Option Nat :=
  match parseFloatB64 s with
  | some p =>
      match mulPow8B64 p with
      | some q => bigIntB64 q
      | none => none
  | none => none

/-- The three `customId`s offered by the network-selection prompt. -/
def networkIds : List String := ["Mainnet", "Testnet-10", "Testnet-11"]

/-- Decoding of a network button `customId` (the cast at wallet.ts line 116, guarded by
the component filter at line 111). -/
def networkOfId (s : String) : Option Network :=
  if s = "Mainnet" then some Network.Mainnet
  else if s = "Testnet-10" then some Network.Testnet10
  else if s = "Testnet-11" then some Network.Testnet11
  else none

/-- Modelled from the spec: `validateNetwork` (`utils/inputValidation`, not under
`src/`) checks membership in the supported network enum; on an already-decoded
`Network` value it always holds. -/
def validateNetwork (_n : Network) : Bool := true

/-- The `try`/`catch`/`finally` body of `sendKaspaPrompt` (wallet.ts lines 319-419),
up to but not including the trailing `promptWalletActions` call that the `finally`
block makes after resetting the state.  Every exit path runs the `finally` block,
i.e. sets the user's state to `WALLET_ACTIONS`.

Branches, in source order: the `INVALID_SESSION` throw when the session or its network
is missing; the recipient-address text wait (60 s) and `validateAddress` check; the
amount text wait (60 s) and `validateAmount` check; the confirm/cancel button wait
(60 s); on `confirm_send`, `BigInt(parseFloat(amount) * 1e8)` under IEEE binary64
semantics (`amountSompiB64`; when it raises, the inner catch fires and no send
occurs), then the `sendKaspa` call (whose own failure is also caught by the inner
catch); on `cancel_send` or
any timeout/failure of the confirmation interaction, no send.  A wait outcome that the
source's filter would reject (wrong shape or wrong `customId`) never resolves the wait
and is modelled as its timeout. -/
def sendFlowCore (uid : String) (w0 : World) (s0 : Script) : Res :=
  let w1 := w0.setState uid .SENDING_KASPA
  let t1 : List Effect := [Effect.setStateEff uid .SENDING_KASPA]
  match (w1.settings uid).bind (fun sess => sess.network) with
  | none =>
      -- throw INVALID_SESSION → outer catch → finally
      ⟨w1.setState uid .WALLET_ACTIONS, s0, t1 ++ [Effect.setStateEff uid .WALLET_ACTIONS], false⟩
  | some net =>
      let p1 := popWait s0
      let t2 := t1 ++ [Effect.wait .sendAddress 60000]
      match p1.1 with
      | .message c1 =>
          let recipientAddress := sanitizeInput c1
          if validateAddress recipientAddress then
            let p2 := popWait p1.2
            let t3 := t2 ++ [Effect.wait .sendAmount 60000]
            match p2.1 with
            | .message c2 =>
                let amount := sanitizeInput c2
                if validateAmount amount then
                  let p3 := popWait p2.2
                  let t4 := t3 ++ [Effect.prompt ["confirm_send", "cancel_send"],
                                   Effect.wait .sendConfirm 60000]
                  match p3.1 with
                  | .buttonOf "confirm_send" =>
                      match amountSompiB64 amount with
                      | some sompi =>
                          -- sendKaspa is invoked; its success or failure (inner catch)
                          -- does not change the session maps
                          let p4 := popExt p3.2
                          ⟨w1.setState uid .WALLET_ACTIONS, p4.2,
                            t4 ++ [Effect.sendKaspaEff uid (sompi : ℤ) recipientAddress net,
                                   Effect.setStateEff uid .WALLET_ACTIONS], false⟩
                      | none =>
                          -- BigInt raises (RangeError / Infinity) → inner catch → finally
                          ⟨w1.setState uid .WALLET_ACTIONS, p3.2,
                            t4 ++ [Effect.setStateEff uid .WALLET_ACTIONS], false⟩
                  | .buttonOf "cancel_send" =>
                      ⟨w1.setState uid .WALLET_ACTIONS, p3.2,
                        t4 ++ [Effect.setStateEff uid .WALLET_ACTIONS], false⟩
                  | _ =>
                      -- confirmation timeout or interaction failure → inner catch
                      ⟨w1.setState uid .WALLET_ACTIONS, p3.2,
                        t4 ++ [Effect.setStateEff uid .WALLET_ACTIONS], false⟩
                else
                  -- INVALID_AMOUNT → outer catch → finally
                  ⟨w1.setState uid .WALLET_ACTIONS, p2.2,
                    t3 ++ [Effect.setStateEff uid .WALLET_ACTIONS], false⟩
            | _ =>
                ⟨w1.setState uid .WALLET_ACTIONS, p2.2,
                  t3 ++ [Effect.setStateEff uid .WALLET_ACTIONS], false⟩
          else
            -- INVALID_ADDRESS → outer catch → finally
            ⟨w1.setState uid .WALLET_ACTIONS, p1.2,
              t2 ++ [Effect.setStateEff uid .WALLET_ACTIONS], false⟩
      | _ =>
          ⟨w1.setState uid .WALLET_ACTIONS, p1.2,
            t2 ++ [Effect.setStateEff uid .WALLET_ACTIONS], false⟩

/-- `checkBalance` (wallet.ts lines 422-456): rate-limit check, then the
`!userSession || !userSession.address` guard, then the external `getBalance` call.
All failures are caught locally; the session maps are never written. -/
def checkBalance (uid : String) (w : World) (s : Script) : Res :=
  let pr := popRate s
  if pr.1 then
    match w.settings uid with
    | some sess =>
        match sess.address with
        | some _ =>
            let pe := popExt pr.2
            ⟨w, pe.2, [Effect.getBalanceEff uid sess.network], false⟩
        | none =>
            -- throw INVALID_WALLET → local catch
            ⟨w, pr.2, [], false⟩
    | none => ⟨w, pr.2, [], false⟩
  else
    -- throw RATE_LIMIT_EXCEEDED → local catch
    ⟨w, pr.2, [], false⟩

/-- `showTransactionHistory` (wallet.ts lines 458-491): rate-limit check, the
`!userSession || !userSession.address || !validateAddress(...)` guard, then the
external history fetch.  All failures caught locally; no session-map writes. -/
def showTransactionHistory (uid : String) (w : World) (s : Script) : Res :=
  let pr := popRate s
  if pr.1 then
    match w.settings uid with
    | some sess =>
        match sess.address with
        | some addr =>
            if validateAddress addr then
              let pe := popExt pr.2
              ⟨w, pe.2, [Effect.getHistoryEff addr sess.network], false⟩
            else ⟨w, pr.2, [], false⟩
        | none => ⟨w, pr.2, [], false⟩
    | none => ⟨w, pr.2, [], false⟩
  else ⟨w, pr.2, [], false⟩

/-- `showHelpMessage` (wallet.ts lines 493-522): rate-limit check then a static embed;
no session-map writes on either branch. -/
def showHelpMessage (_uid : String) (w : World) (s : Script) : Res :=
  let pr := popRate s
  ⟨w, pr.2, [], false⟩

/-- `clearChatHistory` (wallet.ts lines 524-553): rate-limit check then transport-level
message deletion (the channel is always a DM by lines 37-43); no session-map writes. -/
def clearChatHistory (_uid : String) (w : World) (s : Script) : Res :=
  let pr := popRate s
  ⟨w, pr.2, [], false⟩

/-- The mutually recursive prompt functions of the source, as interpreter entry
points.  `checkBalance`, `showTransactionHistory`, `showHelpMessage`,
`clearChatHistory` and the send-flow core contain no recursion and stay plain
functions. -/
inductive Call where
  | handleWalletCommand (uid : String)
  | promptNetworkSelection (uid : String)
  | promptWalletOptions (uid : String) (net : Network)
  | createNewWallet (uid : String) (net : Network)
  | importExistingWallet (uid : String) (net : Network)
  | promptWalletActions (uid : String)
  | sendKaspaPrompt (uid : String)
deriving DecidableEq

/-- A caught raise at a prompt boundary whose catch deletes the user's session-state
entry (the catches of `promptNetworkSelection` at lines 135-142 and of
`promptWalletOptions` at lines 175-178 around their nested calls). -/
def catchDel (uid : String) (pre : List Effect) (r : Res) : Res :=
  if r.threw then
    ⟨r.world.delState uid, r.script, pre ++ r.trace ++ [Effect.delStateEff uid], false⟩
  else
    ⟨r.world, r.script, pre ++ r.trace, false⟩

/-- One step of `handleWalletCommand` (wallet.ts lines 33-81), parametrized by the
interpreter `go` used for the nested prompt calls.  The current state is read with
default `IDLE` (line 45); events in `SENDING_KASPA` / `IMPORTING_WALLET` are dropped
(lines 48-51); otherwise the state dispatches per the `switch` (lines 55-77), and the
top-level catch swallows anything raised (lines 78-80). -/
def hwcF (go : Call → World → Script → Res) (uid : String) (w : World) (s : Script) : Res :=
  let currentState := (w.states uid).getD .IDLE
  if currentState = .SENDING_KASPA ∨ currentState = .IMPORTING_WALLET then
    ⟨w, s, [], false⟩
  else
    match currentState with
    | .IDLE =>
        let r := go (.promptNetworkSelection uid) w s
        ⟨r.world, r.script, r.trace, false⟩
    | .NETWORK_SELECTION =>
        let r := go (.promptNetworkSelection uid) w s
        ⟨r.world, r.script, r.trace, false⟩
    | .WALLET_OPTIONS =>
        match (w.settings uid).bind (fun sess => sess.network) with
        | some net =>
            let r := go (.promptWalletOptions uid net) w s
            ⟨r.world, r.script, r.trace, false⟩
        | none =>
            let r := go (.promptNetworkSelection uid) w s
            ⟨r.world, r.script, r.trace, false⟩
    | .WALLET_ACTIONS =>
        let r := go (.promptWalletActions uid) w s
        ⟨r.world, r.script, r.trace, false⟩
    | _ =>
        -- unexpected state: reset to IDLE and restart network selection (lines 73-76)
        let r := go (.promptNetworkSelection uid) (w.setState uid .IDLE) s
        ⟨r.world, r.script, Effect.setStateEff uid .IDLE :: r.trace, false⟩

/-- One step of `promptNetworkSelection` (wallet.ts lines 83-143).  The rate-limit
throw at lines 86-93 happens before the `try` and so propagates to the caller
(`threw := true`).  Inside the `try`: the three-button prompt, a 300 s component wait
whose filter accepts only the three network ids, the `validateNetwork` check, the
wholesale `userSettings.set` (line 121), the transition to `WALLET_OPTIONS`
(line 131), and the nested `promptWalletOptions` call (line 134).  Any failure in the
`try` lands in the catch, which deletes the session-state entry (line 141). -/
def pnsF (go : Call → World → Script → Res) (uid : String) (w : World) (s : Script) : Res :=
  let pr := popRate s
  if pr.1 then
    let t1 : List Effect := [Effect.prompt networkIds, Effect.wait .networkSelect 300000]
    let pw := popWait pr.2
    match pw.1 with
    | .buttonOf id =>
        match networkOfId id with
        | some selectedNetwork =>
            if validateNetwork selectedNetwork then
              let sess : UserSession := ⟨some selectedNetwork, none, w.now⟩
              let w1 := (w.setSettings uid sess).setState uid .WALLET_OPTIONS
              catchDel uid
                (t1 ++ [Effect.setSettingsEff uid sess,
                        Effect.setStateEff uid .WALLET_OPTIONS])
                (go (.promptWalletOptions uid selectedNetwork) w1 pw.2)
            else
              -- throw INVALID_NETWORK → catch → session-state entry deleted
              ⟨w.delState uid, pw.2, t1 ++ [Effect.delStateEff uid], false⟩
        | none =>
            -- a customId outside the filter never resolves the wait: timeout → catch
            ⟨w.delState uid, pw.2, t1 ++ [Effect.delStateEff uid], false⟩
    | _ =>
        -- timeout or interaction failure → catch → session-state entry deleted
        ⟨w.delState uid, pw.2, t1 ++ [Effect.delStateEff uid], false⟩
  else
    ⟨w, pr.2, [], true⟩

/-- One step of `promptWalletOptions` (wallet.ts lines 145-179): the create/import
prompt, a 300 s component wait, then the nested call; the catch (lines 175-178)
deletes the session-state entry on any failure in the `try`. -/
def pwoF (go : Call → World → Script → Res) (uid : String) (net : Network) (w : World)
    (s : Script) : Res :=
  let t1 : List Effect := [Effect.prompt ["create", "import"], Effect.wait .walletOptions 300000]
  let pw := popWait s
  match pw.1 with
  | .buttonOf "create" => catchDel uid t1 (go (.createNewWallet uid net) w pw.2)
  | .buttonOf "import" => catchDel uid t1 (go (.importExistingWallet uid net) w pw.2)
  | _ =>
      -- timeout / failure / non-matching customId → catch
      ⟨w.delState uid, pw.2, t1 ++ [Effect.delStateEff uid], false⟩

/-- One step of `createNewWallet` (wallet.ts lines 181-210): the external
`generateNewWallet` call; on success the address is recorded in the session, the state
becomes `WALLET_ACTIONS` (line 196) and the actions menu is prompted; on failure the
catch sets the state back to `WALLET_OPTIONS` (line 207) and re-prompts the options. -/
def cnwF (go : Call → World → Script → Res) (uid : String) (net : Network) (w : World)
    (s : Script) : Res :=
  let pe := popExt s
  match pe.1 with
  | some addr =>
      let w1 := (w.setAddress uid addr).setState uid .WALLET_ACTIONS
      let r := go (.promptWalletActions uid) w1 pe.2
      ⟨r.world, r.script,
        Effect.generateWalletEff uid net :: Effect.setStateEff uid .WALLET_ACTIONS :: r.trace,
        false⟩
  | none =>
      let w1 := w.setState uid .WALLET_OPTIONS
      let r := go (.promptWalletOptions uid net) w1 pe.2
      ⟨r.world, r.script,
        Effect.generateWalletEff uid net :: Effect.setStateEff uid .WALLET_OPTIONS :: r.trace,
        false⟩

/-- One step of `importExistingWallet` (wallet.ts lines 212-247): the state becomes
`IMPORTING_WALLET` (line 214); a 60 s text wait whose filter accepts only content
passing `validatePrivateKey` (line 219); the external wallet-import call; on success
the state becomes `WALLET_ACTIONS` (line 236) and the actions menu is prompted; on
timeout or failure the catch sets `WALLET_OPTIONS` (line 244) and re-prompts. -/
def iewF (go : Call → World → Script → Res) (uid : String) (net : Network) (w : World)
    (s : Script) : Res :=
  let w1 := w.setState uid .IMPORTING_WALLET
  let t1 : List Effect := [Effect.setStateEff uid .IMPORTING_WALLET,
                           Effect.wait .privateKeyEntry 60000]
  let pw := popWait s
  let failPath : Script → List Effect → Res := fun s2 t2 =>
    let w2 := w1.setState uid .WALLET_OPTIONS
    let r := go (.promptWalletOptions uid net) w2 s2
    ⟨r.world, r.script, t2 ++ Effect.setStateEff uid .WALLET_OPTIONS :: r.trace, false⟩
  match pw.1 with
  | .message c =>
      if validatePrivateKey c then
        let privateKey := sanitizeInput c
        let pe := popExt pw.2
        match pe.1 with
        | some addr =>
            let w2 := (w1.setAddress uid addr).setState uid .WALLET_ACTIONS
            let r := go (.promptWalletActions uid) w2 pe.2
            ⟨r.world, r.script,
              t1 ++ Effect.importWalletEff privateKey uid net ::
                Effect.setStateEff uid .WALLET_ACTIONS :: r.trace,
              false⟩
        | none => failPath pe.2 (t1 ++ [Effect.importWalletEff privateKey uid net])
      else
        -- content rejected by the filter: the wait never resolves ⇒ timeout → catch
        failPath pw.2 t1
  | _ => failPath pw.2 t1

/-- One step of `promptWalletActions` (wallet.ts lines 249-317): rate-limit check
(inside the `try`), the six-button menu, a 300 s component wait, dispatch to the
selected action followed by a re-prompt (line 311); `back` sets `NETWORK_SELECTION`
and calls `promptNetworkSelection` (lines 305-307, returning without re-prompt); the
catch (lines 312-316) sets `WALLET_ACTIONS` and re-prompts the menu. -/
def pwaF (go : Call → World → Script → Res) (uid : String) (w : World) (s : Script) : Res :=
  let pr := popRate s
  if pr.1 then
    let t1 : List Effect := [Effect.prompt ["send", "balance", "history", "help", "clear", "back"],
                             Effect.wait .walletActions 300000]
    let pw := popWait pr.2
    match pw.1 with
    | .buttonOf "send" =>
        let r1 := go (.sendKaspaPrompt uid) w pw.2
        let r2 := go (.promptWalletActions uid) r1.world r1.script
        ⟨r2.world, r2.script, t1 ++ r1.trace ++ r2.trace, false⟩
    | .buttonOf "balance" =>
        let r1 := checkBalance uid w pw.2
        let r2 := go (.promptWalletActions uid) r1.world r1.script
        ⟨r2.world, r2.script, t1 ++ r1.trace ++ r2.trace, false⟩
    | .buttonOf "history" =>
        let r1 := showTransactionHistory uid w pw.2
        let r2 := go (.promptWalletActions uid) r1.world r1.script
        ⟨r2.world, r2.script, t1 ++ r1.trace ++ r2.trace, false⟩
    | .buttonOf "help" =>
        let r1 := showHelpMessage uid w pw.2
        let r2 := go (.promptWalletActions uid) r1.world r1.script
        ⟨r2.world, r2.script, t1 ++ r1.trace ++ r2.trace, false⟩
    | .buttonOf "clear" =>
        let r1 := clearChatHistory uid w pw.2
        let r2 := go (.promptWalletActions uid) r1.world r1.script
        ⟨r2.world, r2.script, t1 ++ r1.trace ++ r2.trace, false⟩
    | .buttonOf "back" =>
        let w1 := w.setState uid .NETWORK_SELECTION
        let r := go (.promptNetworkSelection uid) w1 pw.2
        if r.threw then
          -- the rate-limit raise from promptNetworkSelection lands in this catch
          let w2 := r.world.setState uid .WALLET_ACTIONS
          let r2 := go (.promptWalletActions uid) w2 r.script
          ⟨r2.world, r2.script,
            t1 ++ Effect.setStateEff uid .NETWORK_SELECTION :: r.trace ++
              Effect.setStateEff uid .WALLET_ACTIONS :: r2.trace,
            false⟩
        else
          ⟨r.world, r.script, t1 ++ Effect.setStateEff uid .NETWORK_SELECTION :: r.trace, false⟩
    | _ =>
        -- wait timeout / failure / non-matching customId → catch → re-prompt
        let w2 := w.setState uid .WALLET_ACTIONS
        let r := go (.promptWalletActions uid) w2 pw.2
        ⟨r.world, r.script, t1 ++ Effect.setStateEff uid .WALLET_ACTIONS :: r.trace, false⟩
  else
    -- RATE_LIMIT_EXCEEDED raised inside the try → catch → re-prompt
    let w2 := w.setState uid .WALLET_ACTIONS
    let r := go (.promptWalletActions uid) w2 pr.2
    ⟨r.world, r.script, Effect.setStateEff uid .WALLET_ACTIONS :: r.trace, false⟩

/-- One step of `sendKaspaPrompt` (wallet.ts lines 319-420): the send-flow core
followed by the `finally` block's `promptWalletActions` call (line 418). -/
def skpF (go : Call → World → Script → Res) (uid : String) (w : World) (s : Script) : Res :=
  let r1 := sendFlowCore uid w s
  let r2 := go (.promptWalletActions uid) r1.world r1.script
  ⟨r2.world, r2.script, r1.trace ++ r2.trace, false⟩

/-- One interpreter step: dispatch a `Call` to its step function. -/
def step (go : Call → World → Script → Res) : Call → World → Script → Res
  | .handleWalletCommand uid, w, s => hwcF go uid w s
  | .promptNetworkSelection uid, w, s => pnsF go uid w s
  | .promptWalletOptions uid net, w, s => pwoF go uid net w s
  | .createNewWallet uid net, w, s => cnwF go uid net w s
  | .importExistingWallet uid net, w, s => iewF go uid net w s
  | .promptWalletActions uid, w, s => pwaF go uid w s
  | .sendKaspaPrompt uid, w, s => skpF go uid w s

/-- The fueled interpreter.  Out of fuel, execution stops with the session maps as they
stand (the source's recursion is unbounded: the actions menu re-prompts itself
indefinitely). -/
def run : Nat → Call → World → Script → Res
  | 0, _, w, s => ⟨w, s, [], false⟩
  | fuel + 1, c, w, s => step (run fuel) c w s

/-- An inbound event for one user: the trigger plus the scripted outcomes of the waits,
rate-limit checks, and external calls its handling performs. -/
structure InEvent where
  uid : String
  fuel : Nat
  script : Script

/-- The process-start state: both session maps empty. -/
def initWorld : World := ⟨fun _ => none, fun _ => none, 0⟩

/-- Dispatch one inbound event: `handleWalletCommand` on the event's user. -/
def dispatch (w : World) (e : InEvent) : World :=
  (run e.fuel (.handleWalletCommand e.uid) w e.script).world

/-- The world reached from process start by a sequence of dispatched events. -/
def reach (evs : List InEvent) : World :=
  evs.foldl dispatch initWorld

/-- "The user's session has its network field set": the external settings map holds a
record whose `network` is present. -/
def netSet (w : World) (uid : String) : Bool :=
  match w.settings uid with
  | some sess => sess.network.isSome
  | none => false

/-- The states the invariant of spec §3 speaks about: every declared state except
`IDLE` and `NETWORK_SELECTION`. -/
def stateNeedsNet : WalletState → Bool
  | .IDLE => false
  | .NETWORK_SELECTION => false
  | _ => true

/-- The network invariant: every recorded session state past network selection implies
the session's network is set. -/
def InvW (w : World) : Prop :=
  ∀ uid st, w.states uid = some st → stateNeedsNet st = true → netSet w uid = true

/-- Precondition under which each prompt function is invoked in the source: all
functions below the wallet-options level are only ever entered with the user's network
recorded. -/
def callPre (c : Call) (w : World) : Prop :=
  match c with
  | .handleWalletCommand _ => True
  | .promptNetworkSelection _ => True
  | .promptWalletOptions uid _ => netSet w uid = true
  | .createNewWallet uid _ => netSet w uid = true
  | .importExistingWallet uid _ => netSet w uid = true
  | .promptWalletActions uid => netSet w uid = true
  | .sendKaspaPrompt uid => netSet w uid = true

/-- Is an effect an invocation of the external `sendKaspa` operation? -/
def isSend : Effect → Bool
  | .sendKaspaEff _ _ _ _ => true
  | _ => false

/-- Number of `sendKaspa` invocations in a trace. -/
def sendCount (t : List Effect) : Nat :=
  t.countP isSend

/-- The deadline each suspension point actually uses in the source: 300 s for the three
menu component waits, 60 s for the three text waits and for the send-confirmation
component wait (wallet.ts line 380). -/
def waitTime : WaitSite → Nat
  | .networkSelect => 300000
  | .walletOptions => 300000
  | .walletActions => 300000
  | .privateKeyEntry => 60000
  | .sendAddress => 60000
  | .sendAmount => 60000
  | .sendConfirm => 60000

/-- No user ever has `CHECKING_BALANCE` or `VIEWING_HISTORY` recorded. -/
def noCBVH (w : World) : Prop :=
  ∀ u, w.states u ≠ some WalletState.CHECKING_BALANCE ∧
    w.states u ≠ some WalletState.VIEWING_HISTORY

/-- Every wait effect in a trace carries the deadline `waitTime` assigns its site. -/
def waitsOk (tr : List Effect) : Bool :=
  tr.all fun e =>
    match e with
    | .wait site t => decide (t = waitTime site)
    | _ => true

/-- A sample session with network and address set, for concrete executions. -/
def sessA : UserSession := ⟨some Network.Mainnet, some "kaspa:qq1", 0⟩

/-- A sample world with one user sitting at the wallet-actions menu. -/
def wUser : World :=
  ⟨fun u => if u = "u" then some WalletState.WALLET_ACTIONS else none,
   fun u => if u = "u" then some sessA else none,
   0⟩

/-- Script for a send flow reaching the confirmation step and cancelling: the "send"
menu click, a valid address, a valid amount, then `cancel_send`. -/
def sCancel : Script :=
  ⟨[WaitResult.buttonOf "send", WaitResult.message "kaspa:qq2", WaitResult.message "1.5",
    WaitResult.buttonOf "cancel_send"], [true], []⟩

/-- Script for a fresh user who picks Mainnet and then lets the options prompt lapse. -/
def sFresh : Script := ⟨[WaitResult.buttonOf "Mainnet"], [], []⟩

/-- Script for a fresh user who picks Mainnet, creates a wallet, and then lets the
actions menu lapse. -/
def sCreate : Script :=
  ⟨[WaitResult.buttonOf "Mainnet", WaitResult.buttonOf "create"], [], [some "kaspa:qq3"]⟩

/-- A sample world with one user mid-send (non-interruptible state). -/
def wSending : World :=
  ⟨fun u => if u = "u" then some WalletState.SENDING_KASPA else none,
   fun u => if u = "u" then some sessA else none,
   0⟩

/-- A session with a network but no wallet address recorded. -/
def sessNoAddr : UserSession := ⟨some Network.Mainnet, none, 0⟩

/-- A sample world whose user has selected a network but holds no wallet address. -/
def wNoAddr : World :=
  ⟨fun u => if u = "u" then some WalletState.WALLET_OPTIONS else none,
   fun u => if u = "u" then some sessNoAddr else none,
   0⟩

/-- The empty script. -/
def sEmpty : Script := ⟨[], [], []⟩

/-! ## Basic lemmas about the world primitives -/

theorem netSet_setState (w : World) (uid : String) (st : WalletState) (u : String) :
    netSet (w.setState uid st) u = netSet w u := rfl

theorem netSet_delState (w : World) (uid u : String) :
    netSet (w.delState uid) u = netSet w u := rfl

theorem netSet_setSettings_some (w : World) (uid : String) (n : Network) (a : Option String)
    (t : Nat) (u : String) (h : netSet w u = true) :
    netSet (w.setSettings uid ⟨some n, a, t⟩) u = true := by
  unfold netSet World.setSettings at *
  by_cases hu : u = uid
  · simp [hu]
  · simp only [hu, if_false]
    exact h

theorem netSet_setSettings_self (w : World) (uid : String) (n : Network) (a : Option String)
    (t : Nat) : netSet (w.setSettings uid ⟨some n, a, t⟩) uid = true := by
  unfold netSet World.setSettings
  simp

theorem netSet_setAddress (w : World) (uid addr u : String) :
    netSet (w.setAddress uid addr) u = netSet w u := by
  unfold netSet World.setAddress
  by_cases hu : u = uid
  · subst hu
    simp only [if_pos rfl]
    cases w.settings u <;> simp
  · simp [hu]

theorem InvW_setState_net (w : World) (uid : String) (st : WalletState) (h : InvW w)
    (hn : netSet w uid = true) : InvW (w.setState uid st) := by
  intro u st' hu hst'
  rw [netSet_setState]
  unfold World.setState at hu
  simp only at hu
  by_cases huid : u = uid
  · exact huid ▸ hn
  · simp [huid] at hu
    exact h u st' hu hst'

theorem InvW_setState_free (w : World) (uid : String) (st : WalletState) (h : InvW w)
    (hst : stateNeedsNet st = false) : InvW (w.setState uid st) := by
  intro u st' hu hst'
  rw [netSet_setState]
  unfold World.setState at hu
  simp only at hu
  by_cases huid : u = uid
  · simp [huid] at hu
    rw [← hu] at hst'
    rw [hst] at hst'
    cases hst'
  · simp [huid] at hu
    exact h u st' hu hst'

theorem InvW_delState (w : World) (uid : String) (h : InvW w) : InvW (w.delState uid) := by
  intro u st' hu hst'
  rw [netSet_delState]
  unfold World.delState at hu
  simp only at hu
  by_cases huid : u = uid
  · simp [huid] at hu
  · simp [huid] at hu
    exact h u st' hu hst'

theorem InvW_setSettings_some (w : World) (uid : String) (n : Network) (a : Option String)
    (t : Nat) (h : InvW w) : InvW (w.setSettings uid ⟨some n, a, t⟩) := by
  intro u st' hu hst'
  have hu' : w.states u = some st' := hu
  exact netSet_setSettings_some w uid n a t u (h u st' hu' hst')

theorem InvW_setAddress (w : World) (uid addr : String) (h : InvW w) :
    InvW (w.setAddress uid addr) := by
  intro u st' hu hst'
  rw [netSet_setAddress]
  exact h u st' hu hst'

theorem noCBVH_setState (w : World) (uid : String) (st : WalletState) (h : noCBVH w)
    (h1 : st ≠ .CHECKING_BALANCE) (h2 : st ≠ .VIEWING_HISTORY) :
    noCBVH (w.setState uid st) := by
  intro u
  unfold World.setState
  simp only
  by_cases huid : u = uid
  · simp [huid]
    exact ⟨h1, h2⟩
  · simp [huid]
    exact h u

theorem noCBVH_delState (w : World) (uid : String) (h : noCBVH w) :
    noCBVH (w.delState uid) := by
  intro u
  unfold World.delState
  simp only
  by_cases huid : u = uid
  · simp [huid]
  · simp [huid]
    exact h u

theorem noCBVH_setSettings (w : World) (uid : String) (sess : UserSession) (h : noCBVH w) :
    noCBVH (w.setSettings uid sess) := h

theorem noCBVH_setAddress (w : World) (uid addr : String) (h : noCBVH w) :
    noCBVH (w.setAddress uid addr) := h

/-! ## The send-flow core -/

theorem sendFlowCore_world (uid : String) (w : World) (s : Script) :
    (sendFlowCore uid w s).world =
      (w.setState uid .SENDING_KASPA).setState uid .WALLET_ACTIONS := by
  unfold sendFlowCore
  dsimp only
  repeat' split <;> try rfl

theorem sendFlowCore_states_self (uid : String) (w : World) (s : Script) :
    (sendFlowCore uid w s).world.states uid = some WalletState.WALLET_ACTIONS := by
  rw [sendFlowCore_world]
  simp [World.setState]

theorem sendFlowCore_netSet (uid : String) (w : World) (s : Script) (u : String) :
    netSet (sendFlowCore uid w s).world u = netSet w u := by
  rw [sendFlowCore_world, netSet_setState, netSet_setState]

theorem sendFlowCore_inv (uid : String) (w : World) (s : Script) (h : InvW w)
    (hn : netSet w uid = true) : InvW (sendFlowCore uid w s).world := by
  rw [sendFlowCore_world]
  apply InvW_setState_net
  · exact InvW_setState_net w uid _ h hn
  · rw [netSet_setState]
    exact hn

theorem sendFlowCore_noCBVH (uid : String) (w : World) (s : Script) (h : noCBVH w) :
    noCBVH (sendFlowCore uid w s).world := by
  rw [sendFlowCore_world]
  apply noCBVH_setState _ _ _ (noCBVH_setState _ _ _ h (by simp) (by simp)) (by simp) (by simp)

theorem sendFlowCore_waitsOk (uid : String) (w : World) (s : Script) :
    waitsOk (sendFlowCore uid w s).trace = true := by
  unfold sendFlowCore
  dsimp only
  repeat' split
  all_goals rfl

/-- C1: in every send-flow execution in which the confirmation step ends with the
`cancel_send` choice, with a timeout, or with any failure of the confirmation
interaction — any resolution other than the `confirm_send` click — the external
`sendKaspa` operation is never invoked. -/
theorem C1_no_send_without_confirm (uid : String) (w : World) (a b : String)
    (r : WaitResult) (ws : List WaitResult) (rs : List Bool) (es : List (Option String))
    (hr : r ≠ WaitResult.buttonOf "confirm_send") :
    sendCount (sendFlowCore uid w
      ⟨WaitResult.message a :: WaitResult.message b :: r :: ws, rs, es⟩).trace = 0 := by
  unfold sendFlowCore
  dsimp only
  simp only [popWait]
  repeat' split
  all_goals first | rfl | simp_all

/-- C2 core: an invalid recipient address means no `sendKaspa` invocation. -/
theorem sendFlowCore_invalid_addr_no_send (uid : String) (w : World) (a : String)
    (ws : List WaitResult) (rs : List Bool) (es : List (Option String))
    (ha : validateAddress (sanitizeInput a) = false) :
    sendCount (sendFlowCore uid w ⟨WaitResult.message a :: ws, rs, es⟩).trace = 0 := by
  unfold sendFlowCore
  dsimp only
  simp only [popWait]
  repeat' split
  all_goals first | rfl | simp_all

set_option maxRecDepth 40000 in
/-- C3: the claim fails on the code.  Under the source's IEEE binary64 semantics the
validator-accepted amount "1.1" makes `parseFloat("1.1") * 1e8` round to
`110000000.00000001` — not the exact `110000000` the claim requires — so `BigInt`
raises a `RangeError`, the inner catch reports a confirmation failure, and
`sendKaspa` is never invoked at all; the flow merely resets to `WALLET_ACTIONS`.
For an amount whose rounded product is integral, such as "1.5", the code does invoke
`sendKaspa` exactly once with the exact `150000000` minor units, showing the failure
is specific to amounts whose decimal value times `10^8` is not exactly recoverable
from doubles.  The intended behaviour is clearly the claim's (the confirmation embed
quotes the entered KAS amount, and the flow exists to move it), so this is a defect
of the code, not of the claim. -/
theorem C3_ieee_rounding_blocks_send :
    validateAmount "1.1" = true ∧
    amountSompiB64 "1.1" = none ∧
    sendCount (sendFlowCore "u" wUser
      ⟨[WaitResult.message "kaspa:qq2", WaitResult.message "1.1",
        WaitResult.buttonOf "confirm_send"], [], []⟩).trace = 0 ∧
    (sendFlowCore "u" wUser
      ⟨[WaitResult.message "kaspa:qq2", WaitResult.message "1.1",
        WaitResult.buttonOf "confirm_send"], [], []⟩).world.states "u"
      = some WalletState.WALLET_ACTIONS ∧
    amountSompiB64 "1.5" = some 150000000 ∧
    ((sendFlowCore "u" wUser
      ⟨[WaitResult.message "kaspa:qq2", WaitResult.message "1.5",
        WaitResult.buttonOf "confirm_send"], [], [some "tx"]⟩).trace.filter isSend)
      = [Effect.sendKaspaEff "u" 150000000 "kaspa:qq2" Network.Mainnet] := by
  decide

/-! ## The non-recursive wallet actions -/

theorem checkBalance_world (uid : String) (w : World) (s : Script) :
    (checkBalance uid w s).world = w := by
  unfold checkBalance
  dsimp only
  repeat' split
  all_goals rfl

theorem showTransactionHistory_world (uid : String) (w : World) (s : Script) :
    (showTransactionHistory uid w s).world = w := by
  unfold showTransactionHistory
  dsimp only
  repeat' split
  all_goals rfl

theorem showHelpMessage_world (uid : String) (w : World) (s : Script) :
    (showHelpMessage uid w s).world = w := rfl

theorem clearChatHistory_world (uid : String) (w : World) (s : Script) :
    (clearChatHistory uid w s).world = w := rfl

theorem checkBalance_waitsOk (uid : String) (w : World) (s : Script) :
    waitsOk (checkBalance uid w s).trace = true := by
  unfold checkBalance
  dsimp only
  repeat' split
  all_goals rfl

theorem showTransactionHistory_waitsOk (uid : String) (w : World) (s : Script) :
    waitsOk (showTransactionHistory uid w s).trace = true := by
  unfold showTransactionHistory
  dsimp only
  repeat' split
  all_goals rfl

theorem showHelpMessage_waitsOk (uid : String) (w : World) (s : Script) :
    waitsOk (showHelpMessage uid w s).trace = true := rfl

theorem clearChatHistory_waitsOk (uid : String) (w : World) (s : Script) :
    waitsOk (clearChatHistory uid w s).trace = true := rfl

/-- A balance check against a session whose `address` is unset fails the
`!userSession || !userSession.address` guard: the world is untouched and no
`getBalance` call is made (the trace is empty). -/
theorem checkBalance_no_address (uid : String) (w : World) (s : Script)
    (sess : UserSession) (hsess : w.settings uid = some sess) (haddr : sess.address = none) :
    (checkBalance uid w s).world = w ∧ (checkBalance uid w s).trace = [] := by
  unfold checkBalance
  dsimp only
  simp only [hsess, haddr]
  split
  all_goals exact ⟨rfl, rfl⟩

/-- A history request against a session whose `address` is unset fails the address
guard: the world is untouched and no history fetch is made. -/
theorem showTransactionHistory_no_address (uid : String) (w : World) (s : Script)
    (sess : UserSession) (hsess : w.settings uid = some sess) (haddr : sess.address = none) :
    (showTransactionHistory uid w s).world = w ∧
      (showTransactionHistory uid w s).trace = [] := by
  unfold showTransactionHistory
  dsimp only
  simp only [hsess, haddr]
  split
  all_goals exact ⟨rfl, rfl⟩

/-! ## Interpreter preservation lemmas -/

/-- A session's recorded network survives every step: the only settings writes are the
wholesale replacement at wallet.ts line 121 (which stores a network) and the address
update on wallet creation/import (which keeps the network). -/
theorem step_netMono (go : Call → World → Script → Res)
    (hgo : ∀ c w s u, netSet w u = true → netSet (go c w s).world u = true)
    (c : Call) (w : World) (s : Script) (u : String) (h : netSet w u = true) :
    netSet (step go c w s).world u = true := by
  cases c <;>
    simp only [step, hwcF, pnsF, pwoF, cnwF, iewF, pwaF, skpF, catchDel] <;>
    repeat' split
  all_goals
    repeat (first
      | exact h
      | exact netSet_setSettings_some _ _ _ _ _ _ h
      | apply hgo
      | simp only [netSet_setState, netSet_delState, netSet_setAddress, sendFlowCore_netSet,
          checkBalance_world, showTransactionHistory_world, showHelpMessage_world,
          clearChatHistory_world])

theorem run_netMono (fuel : Nat) (c : Call) (w : World) (s : Script) (u : String)
    (h : netSet w u = true) : netSet (run fuel c w s).world u = true := by
  induction fuel generalizing c w s u with
  | zero => exact h
  | succ n ih => exact step_netMono (run n) ih c w s u h

theorem netSet_of_bind (w : World) (uid : String) (net : Network)
    (h : (w.settings uid).bind (fun sess => sess.network) = some net) :
    netSet w uid = true := by
  unfold netSet
  cases hs : w.settings uid with
  | none => rw [hs] at h; cases h
  | some sess =>
      rw [hs] at h
      simp only [Option.bind] at h
      simp [h]

theorem netSet_of_state (w : World) (uid : String) (st : WalletState) (hw : InvW w)
    (h : (w.states uid).getD .IDLE = st) (hst : stateNeedsNet st = true) :
    netSet w uid = true := by
  cases hs : w.states uid with
  | none =>
      rw [hs] at h
      simp only [Option.getD] at h
      rw [← h] at hst
      cases hst
  | some st' =>
      rw [hs] at h
      simp only [Option.getD] at h
      subst h
      exact hw uid st' hs hst

theorem InvW_catchDel (uid : String) (pre : List Effect) (r : Res) (h : InvW r.world) :
    InvW (catchDel uid pre r).world := by
  unfold catchDel
  split
  · exact InvW_delState _ uid h
  · exact h

theorem step_inv (go : Call → World → Script → Res)
    (hgoInv : ∀ c w s, InvW w → callPre c w → InvW (go c w s).world)
    (hgoMono : ∀ c w s u, netSet w u = true → netSet (go c w s).world u = true)
    (c : Call) (w : World) (s : Script) (hw : InvW w) (hpre : callPre c w) :
    InvW (step go c w s).world := by
  cases c with
  | handleWalletCommand uid =>
      simp only [step, hwcF]
      split
      · exact hw
      · split
        · exact hgoInv _ _ _ hw trivial
        · exact hgoInv _ _ _ hw trivial
        · split
          · rename_i net hb
            exact hgoInv _ _ _ hw (netSet_of_bind w uid net hb)
          · exact hgoInv _ _ _ hw trivial
        · rename_i hcs
          exact hgoInv _ _ _ hw (netSet_of_state w uid _ hw hcs rfl)
        · exact hgoInv _ _ _ (InvW_setState_free w uid .IDLE hw rfl) trivial
  | promptNetworkSelection uid =>
      simp only [step, pnsF]
      split
      · split
        · split
          · split
            · rename_i x1 id hbtn x2 net hnet hvalid
              have hw0 : InvW (w.setSettings uid ⟨some net, none, w.now⟩) :=
                InvW_setSettings_some w uid net none w.now hw
              have hn0 : netSet (w.setSettings uid ⟨some net, none, w.now⟩) uid = true :=
                netSet_setSettings_self w uid net none w.now
              have hw1 : InvW ((w.setSettings uid ⟨some net, none, w.now⟩).setState uid
                  .WALLET_OPTIONS) := InvW_setState_net _ uid _ hw0 hn0
              have hpre1 : netSet ((w.setSettings uid ⟨some net, none, w.now⟩).setState uid
                  .WALLET_OPTIONS) uid = true := by
                rw [netSet_setState]; exact hn0
              exact InvW_catchDel uid _ _ (hgoInv _ _ _ hw1 hpre1)
            · exact InvW_delState w uid hw
          · exact InvW_delState w uid hw
        · exact InvW_delState w uid hw
      · exact hw
  | promptWalletOptions uid net =>
      simp only [step, pwoF]
      split
      · exact InvW_catchDel uid _ _ (hgoInv _ _ _ hw hpre)
      · exact InvW_catchDel uid _ _ (hgoInv _ _ _ hw hpre)
      · exact InvW_delState w uid hw
  | createNewWallet uid net =>
      simp only [step, cnwF]
      split
      · rename_i addr _
        have hn1 : netSet (w.setAddress uid addr) uid = true := by
          rw [netSet_setAddress]; exact hpre
        have hw1 : InvW ((w.setAddress uid addr).setState uid .WALLET_ACTIONS) :=
          InvW_setState_net _ uid _ (InvW_setAddress w uid addr hw) hn1
        have hpre1 : netSet ((w.setAddress uid addr).setState uid .WALLET_ACTIONS) uid = true := by
          rw [netSet_setState]; exact hn1
        exact hgoInv _ _ _ hw1 hpre1
      · have hw1 : InvW (w.setState uid .WALLET_OPTIONS) :=
          InvW_setState_net w uid _ hw hpre
        have hpre1 : netSet (w.setState uid .WALLET_OPTIONS) uid = true := by
          rw [netSet_setState]; exact hpre
        exact hgoInv _ _ _ hw1 hpre1
  | importExistingWallet uid net =>
      simp only [step, iewF]
      have hwImp : InvW (w.setState uid .IMPORTING_WALLET) :=
        InvW_setState_net w uid _ hw hpre
      have hnImp : netSet (w.setState uid .IMPORTING_WALLET) uid = true := by
        rw [netSet_setState]; exact hpre
      split
      · split
        · split
          · rename_i addr _
            have hn1 : netSet ((w.setState uid .IMPORTING_WALLET).setAddress uid addr) uid
                = true := by
              rw [netSet_setAddress]; exact hnImp
            have hw1 : InvW (((w.setState uid .IMPORTING_WALLET).setAddress uid addr).setState
                uid .WALLET_ACTIONS) :=
              InvW_setState_net _ uid _
                (InvW_setAddress _ uid addr hwImp) hn1
            have hpre1 : netSet (((w.setState uid .IMPORTING_WALLET).setAddress uid
                addr).setState uid .WALLET_ACTIONS) uid = true := by
              rw [netSet_setState]; exact hn1
            exact hgoInv _ _ _ hw1 hpre1
          · have hw1 : InvW ((w.setState uid .IMPORTING_WALLET).setState uid .WALLET_OPTIONS) :=
              InvW_setState_net _ uid _ hwImp hnImp
            have hpre1 : netSet ((w.setState uid .IMPORTING_WALLET).setState uid
                .WALLET_OPTIONS) uid = true := by
              rw [netSet_setState]; exact hnImp
            exact hgoInv _ _ _ hw1 hpre1
        · have hw1 : InvW ((w.setState uid .IMPORTING_WALLET).setState uid .WALLET_OPTIONS) :=
            InvW_setState_net _ uid _ hwImp hnImp
          have hpre1 : netSet ((w.setState uid .IMPORTING_WALLET).setState uid
              .WALLET_OPTIONS) uid = true := by
            rw [netSet_setState]; exact hnImp
          exact hgoInv _ _ _ hw1 hpre1
      · have hw1 : InvW ((w.setState uid .IMPORTING_WALLET).setState uid .WALLET_OPTIONS) :=
          InvW_setState_net _ uid _ hwImp hnImp
        have hpre1 : netSet ((w.setState uid .IMPORTING_WALLET).setState uid
            .WALLET_OPTIONS) uid = true := by
          rw [netSet_setState]; exact hnImp
        exact hgoInv _ _ _ hw1 hpre1
  | promptWalletActions uid =>
      simp only [step, pwaF]
      have hwWA : InvW (w.setState uid .WALLET_ACTIONS) :=
        InvW_setState_net w uid _ hw hpre
      have hnWA : netSet (w.setState uid .WALLET_ACTIONS) uid = true := by
        rw [netSet_setState]; exact hpre
      split
      · split
        · -- send
          have h1 : InvW (go (.sendKaspaPrompt uid) w (popWait (popRate s).2).2).world :=
            hgoInv _ _ _ hw hpre
          have h2 : netSet (go (.sendKaspaPrompt uid) w
              (popWait (popRate s).2).2).world uid = true :=
            hgoMono _ _ _ uid hpre
          exact hgoInv _ _ _ h1 h2
        · -- balance
          rw [checkBalance_world]
          exact hgoInv _ _ _ hw hpre
        · rw [showTransactionHistory_world]
          exact hgoInv _ _ _ hw hpre
        · rw [showHelpMessage_world]
          exact hgoInv _ _ _ hw hpre
        · rw [clearChatHistory_world]
          exact hgoInv _ _ _ hw hpre
        · -- back
          have hwNS : InvW (w.setState uid .NETWORK_SELECTION) :=
            InvW_setState_free w uid _ hw rfl
          have hnNS : netSet (w.setState uid .NETWORK_SELECTION) uid = true := by
            rw [netSet_setState]; exact hpre
          split
          · have h1 : InvW (go (.promptNetworkSelection uid)
                (w.setState uid .NETWORK_SELECTION) (popWait (popRate s).2).2).world :=
              hgoInv _ _ _ hwNS trivial
            have h2 : netSet (go (.promptNetworkSelection uid)
                (w.setState uid .NETWORK_SELECTION) (popWait (popRate s).2).2).world uid
                  = true :=
              hgoMono _ _ _ uid hnNS
            have hw2 : InvW ((go (.promptNetworkSelection uid)
                (w.setState uid .NETWORK_SELECTION) (popWait (popRate s).2).2).world.setState
                  uid .WALLET_ACTIONS) :=
              InvW_setState_net _ uid _ h1 h2
            have hn2 : netSet ((go (.promptNetworkSelection uid)
                (w.setState uid .NETWORK_SELECTION) (popWait (popRate s).2).2).world.setState
                  uid .WALLET_ACTIONS) uid = true := by
              rw [netSet_setState]; exact h2
            exact hgoInv _ _ _ hw2 hn2
          · exact hgoInv _ _ _ hwNS trivial
        · -- wait timeout/failure
          exact hgoInv _ _ _ hwWA hnWA
      · -- rate limited
        exact hgoInv _ _ _ hwWA hnWA
  | sendKaspaPrompt uid =>
      simp only [step, skpF]
      have h1 : InvW (sendFlowCore uid w s).world := sendFlowCore_inv uid w s hw hpre
      have h2 : netSet (sendFlowCore uid w s).world uid = true := by
        rw [sendFlowCore_netSet]; exact hpre
      exact hgoInv _ _ _ h1 h2

theorem run_inv (fuel : Nat) (c : Call) (w : World) (s : Script) (hw : InvW w)
    (hpre : callPre c w) : InvW (run fuel c w s).world := by
  induction fuel generalizing c w s with
  | zero => exact hw
  | succ n ih => exact step_inv (run n) ih (fun c w s u => run_netMono n c w s u) c w s hw hpre

theorem waitsOk_append (a b : List Effect) :
    waitsOk (a ++ b) = (waitsOk a && waitsOk b) := List.all_append

theorem step_noCBVH (go : Call → World → Script → Res)
    (hgo : ∀ c w s, noCBVH w → noCBVH (go c w s).world)
    (c : Call) (w : World) (s : Script) (h : noCBVH w) :
    noCBVH (step go c w s).world := by
  cases c <;>
    simp only [step, hwcF, pnsF, pwoF, cnwF, iewF, pwaF, skpF, catchDel] <;>
    repeat' split
  all_goals
    repeat (first
      | exact h
      | simp only [checkBalance_world, showTransactionHistory_world, showHelpMessage_world,
          clearChatHistory_world]
      | apply hgo
      | apply sendFlowCore_noCBVH
      | apply noCBVH_setState
      | apply noCBVH_setAddress
      | apply noCBVH_delState)
  all_goals try simp

theorem run_noCBVH (fuel : Nat) (c : Call) (w : World) (s : Script) (h : noCBVH w) :
    noCBVH (run fuel c w s).world := by
  induction fuel generalizing c w s with
  | zero => exact h
  | succ n ih => exact step_noCBVH (run n) ih c w s h

theorem step_waitsOk (go : Call → World → Script → Res)
    (hgo : ∀ c w s, waitsOk (go c w s).trace = true)
    (c : Call) (w : World) (s : Script) :
    waitsOk (step go c w s).trace = true := by
  cases c <;>
    simp only [step, hwcF, pnsF, pwoF, cnwF, iewF, pwaF, skpF, catchDel] <;>
    repeat' split
  all_goals
    simp only [waitsOk, List.all_append, List.all_cons, List.all_nil, Bool.and_eq_true]
  all_goals
    repeat (first
      | constructor
      | rfl
      | exact hgo _ _ _
      | exact sendFlowCore_waitsOk _ _ _
      | exact checkBalance_waitsOk _ _ _
      | exact showTransactionHistory_waitsOk _ _ _
      | exact showHelpMessage_waitsOk _ _ _
      | exact clearChatHistory_waitsOk _ _ _)

theorem run_waitsOk (fuel : Nat) (c : Call) (w : World) (s : Script) :
    waitsOk (run fuel c w s).trace = true := by
  induction fuel generalizing c w s with
  | zero => rfl
  | succ n ih => exact step_waitsOk (run n) ih c w s

/-! ## Reachability and the claims -/

theorem InvW_initWorld : InvW initWorld := by
  intro uid st h
  simp [initWorld] at h

theorem noCBVH_initWorld : noCBVH initWorld := by
  intro u
  simp [initWorld]

theorem foldl_dispatch_inv (evs : List InEvent) (w : World) (hw : InvW w) :
    InvW (evs.foldl dispatch w) := by
  induction evs generalizing w with
  | nil => exact hw
  | cons e rest ih =>
      exact ih _ (run_inv e.fuel _ w e.script hw trivial)

theorem foldl_dispatch_noCBVH (evs : List InEvent) (w : World) (hw : noCBVH w) :
    noCBVH (evs.foldl dispatch w) := by
  induction evs generalizing w with
  | nil => exact hw
  | cons e rest ih =>
      exact ih _ (run_noCBVH e.fuel _ w e.script hw)

theorem reach_inv (evs : List InEvent) : InvW (reach evs) :=
  foldl_dispatch_inv evs initWorld InvW_initWorld

theorem reach_noCBVH (evs : List InEvent) : noCBVH (reach evs) :=
  foldl_dispatch_noCBVH evs initWorld noCBVH_initWorld

/-- C4: for a user recorded in `SENDING_KASPA` or `IMPORTING_WALLET`, dispatching any
inbound wallet-command event performs no action: the result carries the unchanged
world, the untouched script, an empty effect trace, and no raise. -/
theorem C4_non_interruptible_drops_event (fuel : Nat) (uid : String) (w : World)
    (s : Script) (st : WalletState) (hst : w.states uid = some st)
    (h : st = WalletState.SENDING_KASPA ∨ st = WalletState.IMPORTING_WALLET) :
    run fuel (.handleWalletCommand uid) w s = ⟨w, s, [], false⟩ := by
  cases fuel with
  | zero => rfl
  | succ n =>
      simp only [run, step, hwcF, hst]
      rcases h with rfl | rfl <;> simp

theorem C4_witness :
    wSending.states "u" = some WalletState.SENDING_KASPA ∧
    run 3 (.handleWalletCommand "u") wSending sEmpty = ⟨wSending, sEmpty, [], false⟩ :=
  ⟨by decide, C4_non_interruptible_drops_event 3 "u" wSending sEmpty
    WalletState.SENDING_KASPA (by decide) (Or.inl rfl)⟩

/-- C5: in every state reachable from the initial empty session maps by any sequence
of dispatched events, a user recorded in `WALLET_OPTIONS`, `WALLET_ACTIONS`,
`SENDING_KASPA`, `IMPORTING_WALLET`, `CHECKING_BALANCE` or `VIEWING_HISTORY` has the
session's network field set. -/
theorem C5_reachable_states_have_network (evs : List InEvent) (uid : String)
    (st : WalletState) (h : (reach evs).states uid = some st)
    (hst : st ∈ [WalletState.WALLET_OPTIONS, WalletState.WALLET_ACTIONS,
      WalletState.SENDING_KASPA, WalletState.IMPORTING_WALLET,
      WalletState.CHECKING_BALANCE, WalletState.VIEWING_HISTORY]) :
    netSet (reach evs) uid = true := by
  apply reach_inv evs uid st h
  simp only [List.mem_cons, List.not_mem_nil, or_false] at hst
  rcases hst with rfl | rfl | rfl | rfl | rfl | rfl <;> rfl

theorem C5_witness :
    (reach [⟨"u", 4, sCreate⟩]).states "u" = some WalletState.WALLET_ACTIONS ∧
    WalletState.WALLET_ACTIONS ∈ [WalletState.WALLET_OPTIONS, WalletState.WALLET_ACTIONS,
      WalletState.SENDING_KASPA, WalletState.IMPORTING_WALLET,
      WalletState.CHECKING_BALANCE, WalletState.VIEWING_HISTORY] ∧
    netSet (reach [⟨"u", 4, sCreate⟩]) "u" = true :=
  ⟨by decide, by decide,
   C5_reachable_states_have_network [⟨"u", 4, sCreate⟩] "u" WalletState.WALLET_ACTIONS
     (by decide) (by decide)⟩

/-- C6: if the network-selection wait times out, the user's session-state entry is
deleted, so the next lookup defaults to `IDLE`. -/
theorem C6_network_timeout_discards_entry (fuel : Nat) (uid : String) (w : World)
    (ws : List WaitResult) (rs : List Bool) (es : List (Option String)) :
    (run (fuel + 1) (.promptNetworkSelection uid) w
        ⟨WaitResult.timeout :: ws, true :: rs, es⟩).world.states uid = none ∧
    ((run (fuel + 1) (.promptNetworkSelection uid) w
        ⟨WaitResult.timeout :: ws, true :: rs, es⟩).world.states uid).getD
      WalletState.IDLE = WalletState.IDLE := by
  have hrun : (run (fuel + 1) (.promptNetworkSelection uid) w
      ⟨WaitResult.timeout :: ws, true :: rs, es⟩).world = w.delState uid := by
    simp only [run, step, pnsF, popRate, popWait]
    simp
  rw [hrun]
  simp [World.delState]

/-- C8 amended: every suspension point's deadline is the one `waitTime` assigns its
site — 60 s for all free-text waits and for the send-confirmation button wait, 300 s
for the three menu button waits. -/
theorem C8_every_wait_uses_its_deadline (fuel : Nat) (c : Call) (w : World) (s : Script)
    (site : WaitSite) (t : Nat)
    (h : Effect.wait site t ∈ (run fuel c w s).trace) : t = waitTime site := by
  have hall := run_waitsOk fuel c w s
  unfold waitsOk at hall
  rw [List.all_eq_true] at hall
  have hx := hall _ h
  simpa using hx

/-- C8 counterexample: the send-confirmation wait is a menu/button wait but uses a
60-second deadline (wallet.ts line 380), not the 300 seconds the claim asserts for
every button wait. -/
theorem C8_counterexample :
    Effect.wait WaitSite.sendConfirm 60000 ∈
      (run 3 (.handleWalletCommand "u") wUser sCancel).trace ∧
    WaitSite.kind WaitSite.sendConfirm = WaitKind.button ∧ (60000 : Nat) ≠ 300000 := by
  decide

theorem C8_witness :
    Effect.wait WaitSite.sendConfirm 60000 ∈
      (run 3 (.handleWalletCommand "u") wUser sCancel).trace ∧
    60000 = waitTime WaitSite.sendConfirm :=
  ⟨by decide,
   C8_every_wait_uses_its_deadline 3 (.handleWalletCommand "u") wUser sCancel
     WaitSite.sendConfirm 60000 (by decide)⟩

/-- C10: the balance, history, help and clear-chat actions never write the
session-state map (the recorded state, `WALLET_ACTIONS` when they are reachable, is
untouched), and no reachable state records `CHECKING_BALANCE` or `VIEWING_HISTORY`
for any user. -/
theorem C10_actions_never_write_states :
    (∀ (uid : String) (w : World) (s : Script) (u : String),
      (checkBalance uid w s).world.states u = w.states u ∧
      (showTransactionHistory uid w s).world.states u = w.states u ∧
      (showHelpMessage uid w s).world.states u = w.states u ∧
      (clearChatHistory uid w s).world.states u = w.states u) ∧
    (∀ (evs : List InEvent) (uid : String),
      (reach evs).states uid ≠ some WalletState.CHECKING_BALANCE ∧
      (reach evs).states uid ≠ some WalletState.VIEWING_HISTORY) := by
  constructor
  · intro uid w s u
    rw [checkBalance_world, showTransactionHistory_world, showHelpMessage_world,
      clearChatHistory_world]
    exact ⟨rfl, rfl, rfl, rfl⟩
  · intro evs uid
    exact reach_noCBVH evs uid

theorem C1_witness :
    (WaitResult.buttonOf "cancel_send" ≠ WaitResult.buttonOf "confirm_send") ∧
    sendCount (sendFlowCore "u" wUser
      ⟨[WaitResult.message "kaspa:qq2", WaitResult.message "1.5",
        WaitResult.buttonOf "cancel_send"], [], []⟩).trace = 0 :=
  ⟨by decide,
   C1_no_send_without_confirm "u" wUser "kaspa:qq2" "1.5"
     (WaitResult.buttonOf "cancel_send") [] [] [] (by decide)⟩

/-- C2: if the entered recipient address fails validation, no `sendKaspa` call occurs;
and every run of the send flow — success or failure — ends with the user's recorded
state set back to `WALLET_ACTIONS` (the `finally` block at wallet.ts lines 415-419). -/
theorem C2_invalid_address_no_send_and_reset (uid : String) (w : World) (a : String)
    (ws : List WaitResult) (rs : List Bool) (es : List (Option String))
    (ha : validateAddress (sanitizeInput a) = false) :
    sendCount (sendFlowCore uid w ⟨WaitResult.message a :: ws, rs, es⟩).trace = 0 ∧
    ∀ s : Script, (sendFlowCore uid w s).world.states uid
      = some WalletState.WALLET_ACTIONS :=
  ⟨sendFlowCore_invalid_addr_no_send uid w a ws rs es ha,
   fun s => sendFlowCore_states_self uid w s⟩

theorem C2_witness :
    validateAddress (sanitizeInput "bad") = false ∧
    sendCount (sendFlowCore "u" wUser ⟨[WaitResult.message "bad"], [], []⟩).trace = 0 ∧
    (sendFlowCore "u" wUser sEmpty).world.states "u" = some WalletState.WALLET_ACTIONS :=
  ⟨by decide,
   (C2_invalid_address_no_send_and_reset "u" wUser "bad" [] [] [] (by decide)).1,
   (C2_invalid_address_no_send_and_reset "u" wUser "bad" [] [] [] (by decide)).2 sEmpty⟩

/-- C9: a successful network selection replaces the user's stored settings record
wholesale with one holding exactly the chosen network and the activity timestamp —
no wallet address — and a balance or history request against an address-less session
fails the address guard without touching the world or calling the wallet backend. -/
theorem C9_selection_replaces_record (fuel : Nat) (uid : String) (w : World)
    (id : String) (net : Network) (ws : List WaitResult) (rs : List Bool)
    (es : List (Option String)) (hid : networkOfId id = some net) :
    (Effect.setSettingsEff uid ⟨some net, none, w.now⟩ ∈
      (run (fuel + 1) (.promptNetworkSelection uid) w
        ⟨WaitResult.buttonOf id :: ws, true :: rs, es⟩).trace) ∧
    (∀ (s : Script) (sess : UserSession), w.settings uid = some sess →
      sess.address = none →
      (checkBalance uid w s).world = w ∧ (checkBalance uid w s).trace = [] ∧
      (showTransactionHistory uid w s).world = w ∧
      (showTransactionHistory uid w s).trace = []) := by
  constructor
  · simp only [run, step, pnsF, popRate, popWait, hid]
    simp only [catchDel, validateNetwork]
    split <;> (try split) <;> simp_all
  · intro s sess hsess haddr
    obtain ⟨h1, h2⟩ := checkBalance_no_address uid w s sess hsess haddr
    obtain ⟨h3, h4⟩ := showTransactionHistory_no_address uid w s sess hsess haddr
    exact ⟨h1, h2, h3, h4⟩

theorem C9_witness :
    networkOfId "Mainnet" = some Network.Mainnet ∧
    (Effect.setSettingsEff "u" ⟨some Network.Mainnet, none, wNoAddr.now⟩ ∈
      (run 3 (.promptNetworkSelection "u") wNoAddr
        ⟨[WaitResult.buttonOf "Mainnet"], [true], []⟩).trace) ∧
    wNoAddr.settings "u" = some sessNoAddr ∧ sessNoAddr.address = none ∧
    (checkBalance "u" wNoAddr sEmpty).world = wNoAddr ∧
    (checkBalance "u" wNoAddr sEmpty).trace = [] ∧
    (showTransactionHistory "u" wNoAddr sEmpty).world = wNoAddr ∧
    (showTransactionHistory "u" wNoAddr sEmpty).trace = [] := by
  have h := C9_selection_replaces_record 2 "u" wNoAddr "Mainnet" Network.Mainnet [] [] []
    (by decide)
  have h2 := h.2 sEmpty sessNoAddr (by decide) rfl
  exact ⟨by decide, h.1, by decide, rfl, h2.1, h2.2.1, h2.2.2.1, h2.2.2.2⟩

/-- C7 counterexample: for the fresh user "u" the claimed transitions are not recorded.
In the scripted scenario where "u" triggers the command, selects Mainnet and creates a
wallet, the trace contains no write of `IDLE` and no write of `NETWORK_SELECTION` for
"u" — no session entry is created in `IDLE` and the session is never transitioned to
`NETWORK_SELECTION` (lookup merely defaults to `IDLE`; the first recorded state is
`WALLET_OPTIONS`).  While the network prompt is pending (trigger then no response) the
recorded state is likewise absent, not `NETWORK_SELECTION`. -/
theorem C7_counterexample :
    initWorld.states "u" = none ∧
    (run 5 (.handleWalletCommand "u") initWorld sCreate).trace.count
        (Effect.setStateEff "u" WalletState.NETWORK_SELECTION) = 0 ∧
    (run 5 (.handleWalletCommand "u") initWorld sCreate).trace.count
        (Effect.setStateEff "u" WalletState.IDLE) = 0 ∧
    (run 5 (.handleWalletCommand "u") initWorld sFresh).world.states "u" ≠
      some WalletState.NETWORK_SELECTION := by
  decide

/-- C7 amended: for a user with no prior session entry, an inbound trigger dispatches
with the lookup defaulting to `IDLE` (no entry is written for `IDLE` or
`NETWORK_SELECTION`); it renders the network-selection prompt offering exactly the
three supported choices; a selection outside the three is not accepted (the wait
lapses and the entry stays absent); and a valid selection sets the recorded state to
`WALLET_OPTIONS`. -/
theorem C7_fresh_user_network_prompt (fuel : Nat) (uid : String) (w : World)
    (h0 : w.states uid = none) :
    networkIds = ["Mainnet", "Testnet-10", "Testnet-11"] ∧
    (∀ s : Script, (popRate s).1 = true →
      (run (fuel + 2) (.handleWalletCommand uid) w s).trace.head?
        = some (Effect.prompt networkIds)) ∧
    (∀ id, networkOfId id = none → ∀ (rs : List Bool) (es : List (Option String)),
      (run (fuel + 2) (.handleWalletCommand uid) w
        ⟨[WaitResult.buttonOf id], true :: rs, es⟩).world.states uid = none) ∧
    (∀ id net (rs : List Bool) (es : List (Option String)), networkOfId id = some net →
      Effect.setStateEff uid WalletState.WALLET_OPTIONS ∈
        (run (fuel + 2) (.handleWalletCommand uid) w
          ⟨[WaitResult.buttonOf id], true :: rs, es⟩).trace) := by
  refine ⟨rfl, ?_, ?_, ?_⟩
  · intro s hrate
    simp only [run, step, hwcF, h0, Option.getD_none]
    rw [if_neg (by simp)]
    simp only [run, step, pnsF, hrate]
    simp only [catchDel, validateNetwork]
    repeat' split
    all_goals first | rfl | simp_all
  · intro id hid rs es
    simp only [run, step, hwcF, h0, Option.getD_none]
    rw [if_neg (by simp)]
    simp only [run, step, pnsF, popRate, popWait, hid]
    simp [World.delState]
  · intro id net rs es hid
    simp only [run, step, hwcF, h0, Option.getD_none]
    rw [if_neg (by simp)]
    simp only [run, step, pnsF, popRate, popWait, hid]
    simp only [catchDel, validateNetwork]
    split <;> (try split) <;> simp_all

theorem C7_witness :
    initWorld.states "u" = none ∧
    (popRate sFresh).1 = true ∧
    (run 5 (.handleWalletCommand "u") initWorld sFresh).trace.head?
      = some (Effect.prompt networkIds) ∧
    networkOfId "bogus" = none ∧
    (run 5 (.handleWalletCommand "u") initWorld
      ⟨[WaitResult.buttonOf "bogus"], [true], []⟩).world.states "u" = none ∧
    networkOfId "Mainnet" = some Network.Mainnet ∧
    Effect.setStateEff "u" WalletState.WALLET_OPTIONS ∈
      (run 5 (.handleWalletCommand "u") initWorld
        ⟨[WaitResult.buttonOf "Mainnet"], [true], []⟩).trace := by
  have h := C7_fresh_user_network_prompt 3 "u" initWorld rfl
  exact ⟨rfl, by decide, h.2.1 sFresh (by decide), by decide,
    h.2.2.1 "bogus" (by decide) [] [], by decide,
    h.2.2.2 "Mainnet" Network.Mainnet [] [] (by decide)⟩


theorem C10_witness :
    (checkBalance "u" wUser sEmpty).world.states "u" = wUser.states "u" ∧
    (reach [⟨"u", 4, sCreate⟩]).states "u" ≠ some WalletState.CHECKING_BALANCE :=
  ⟨(C10_actions_never_write_states.1 "u" wUser sEmpty "u").1,
   (C10_actions_never_write_states.2 [⟨"u", 4, sCreate⟩] "u").1⟩

end NachoBot
